import Mathlib

/-!
# Verification of the kagikanri authentication / sync core

A shallow embedding of the Rust backend (`src/backend/src/`) of the
kagikanri secrets manager, together with theorems settling the frozen
claims about its specification.

Modelling conventions:
* `chrono::DateTime<Utc>` / `SystemTime` timestamps are seconds since the
  epoch, as `Nat`; `chrono::Duration::hours(h)` is `h * 3600` seconds.
* The external `pass` store (`PassInterface::get_password`) is an
  environment `PassEnv : String → Except AppError PasswordEntry`.
* The external crates `base32` (decode) and `totp_lite` (`totp::<Sha1>`)
  are parameters `B32Decode` and `TotpFn`; the repository code only
  composes them.
* Rust `&str` operations used by the code (`split`, `trim`,
  `strip_prefix`, `starts_with`) are re-implemented structurally over
  `List Char` so that every definition evaluates by kernel reduction.
* `HashMap<String, Session>` is an association list with unique keys.
* `Uuid::new_v4()` (fresh session id) and `Utc::now()` are passed in as
  explicit arguments.
-/

namespace Kagikanri

/-- `AppError` from `src/backend/src/error.rs`. -/
inductive AppError where
  | AuthenticationFailed (msg : String)
  | AuthorizationFailed (msg : String)
  | PassError (msg : String)
  | GitError (msg : String)
  | DatabaseError (msg : String)
  | ConfigError (msg : String)
  | ValidationError (msg : String)
  | WebAuthnError (msg : String)
  | InternalError (msg : String)
  | NotFound (msg : String)
  | Conflict (msg : String)
  deriving DecidableEq, Repr

/-- `AuthConfig` from `src/backend/src/config.rs`. -/
structure AuthConfig where
  master_password_path : String
  totp_path : String
  session_timeout_hours : Nat
  deriving DecidableEq, Repr

/-- `GitConfig` from `src/backend/src/config.rs`. -/
structure GitConfig where
  repo_url : String
  access_token : String
  sync_interval_minutes : Nat
  deriving DecidableEq, Repr

/-- `PasswordEntry` from `src/backend/src/pass.rs` (metadata as an
association list). -/
structure PasswordEntry where
  password : String
  metadata : List (String × String) := []
  deriving DecidableEq, Repr

/-- The external `pass` store: `PassInterface::get_password` viewed as a
lookup environment. -/
def PassEnv : Type := String → Except AppError PasswordEntry

/-- The external `base32::decode(RFC4648 {padding: true}, _)` function
(crate `base32`): `none` models decode failure. -/
def B32Decode : Type := String → Option (List Nat)

/-- The external `totp_lite::totp::<Sha1>` function (crate `totp_lite`):
secret bytes and time window to code string. -/
def TotpFn : Type := List Nat → Nat → String

/-- `AuthService::verify_master_password` (`src/backend/src/auth.rs`
lines 75–87). -/
def verify_master_password (pass : PassEnv) (cfg : AuthConfig)
    (provided_password : String) : Except AppError Unit :=
  match pass cfg.master_password_path with
  | .error e => .error e
  | .ok stored_password =>
    if provided_password = stored_password.password then
      .ok ()
    else
      .error (.AuthenticationFailed "Invalid master password")

/-- The `for window in windows` loop body of `verify_totp`: succeed on the
first window whose expected code matches, else `Invalid TOTP code`. -/
def checkWindows (totp : TotpFn) (secret_bytes : List Nat)
    (provided_code : String) : List Nat → Except AppError Unit
  | [] => .error (.AuthenticationFailed "Invalid TOTP code")
  | window :: rest =>
    if provided_code = totp secret_bytes window then
      .ok ()
    else
      checkWindows totp secret_bytes provided_code rest

/-- `AuthService::verify_totp` (`src/backend/src/auth.rs` lines 89–120):
look up the secret, base32-decode it, and compare against the codes of
windows `[now/30, now/30 - 1]`. -/
def verify_totp (b32 : B32Decode) (totp : TotpFn) (pass : PassEnv)
    (cfg : AuthConfig) (now : Nat) (provided_code : String) :
    Except AppError Unit :=
  match pass cfg.totp_path with
  | .error e => .error e
  | .ok totp_entry =>
    match b32 totp_entry.password with
    | none => .error (.AuthenticationFailed "Invalid TOTP secret format")
    | some secret_bytes =>
      checkWindows totp secret_bytes provided_code [now / 30, now / 30 - 1]

/-- `LoginRequest` from `src/backend/src/auth.rs`. -/
structure LoginRequest where
  master_password : String
  totp_code : String
  deriving DecidableEq, Repr

/-- `LoginResponse` from `src/backend/src/auth.rs`. -/
structure LoginResponse where
  success : Bool
  user_id : String
  expires_at : Nat
  deriving DecidableEq, Repr

/-- `AuthService::authenticate` (`src/backend/src/auth.rs` lines 41–58):
verify the master password, then the TOTP code, then issue a
`LoginResponse` expiring `session_timeout_hours` from now. -/
def authenticate (b32 : B32Decode) (totp : TotpFn) (pass : PassEnv)
    (cfg : AuthConfig) (now : Nat) (request : LoginRequest) :
    Except AppError LoginResponse :=
  match verify_master_password pass cfg request.master_password with
  | .error e => .error e
  | .ok _ =>
    match verify_totp b32 totp pass cfg now request.totp_code with
    | .error e => .error e
    | .ok _ =>
      .ok { success := true
            user_id := "user"
            expires_at := now + cfg.session_timeout_hours * 3600 }

/-- `AuthStatus` from `src/backend/src/auth.rs`. -/
structure AuthStatus where
  user_id : Option String
  expires_at : Option Nat
  deriving DecidableEq, Repr

/-- `AuthService::get_auth_status` (`src/backend/src/auth.rs` lines
60–73): populates the identity fields whenever a session id is present,
without consulting any session store. -/
def get_auth_status (cfg : AuthConfig) (session_id : Option String)
    (now : Nat) : AuthStatus :=
  if session_id.isSome then
    { user_id := some "user"
      expires_at := some (now + cfg.session_timeout_hours * 3600) }
  else
    { user_id := none, expires_at := none }

/-- `Session` from `src/backend/src/state.rs`. -/
structure Session where
  user_id : String
  created_at : Nat
  expires_at : Nat
  deriving DecidableEq, Repr

/-- `SessionStore` from `src/backend/src/state.rs`: the `HashMap` as an
association list. -/
structure SessionStore where
  sessions : List (String × Session)
  deriving DecidableEq, Repr

/-- `HashMap::get`. -/
def SessionStore.get_session (st : SessionStore) (session_id : String) :
    Option Session :=
  (st.sessions.find? (fun p => p.1 == session_id)).map Prod.snd

/-- `HashMap::insert` (replaces any existing binding for the key). -/
def SessionStore.insert (st : SessionStore) (session_id : String)
    (session : Session) : SessionStore :=
  ⟨(session_id, session) :: st.sessions.filter (fun p => p.1 != session_id)⟩

/-- `SessionStore::cleanup_expired` (`state.rs` lines 133–136): retain
sessions with `expires_at > now`. -/
def SessionStore.cleanup_expired (st : SessionStore) (now : Nat) :
    SessionStore :=
  ⟨st.sessions.filter (fun p => now < p.2.expires_at)⟩

/-- `SessionStore::create_session` (`state.rs` lines 98–115): insert a
session with the HARDCODED 24-hour expiry (`chrono::Duration::hours(24)`,
marked `TODO: Use config` in the source), then sweep expired sessions.
The fresh id (`Uuid::new_v4()`) is the `session_id` argument. -/
def SessionStore.create_session (st : SessionStore) (user_id : String)
    (now : Nat) (session_id : String) : String × SessionStore :=
  let expires_at := now + 24 * 3600
  let session : Session :=
    { user_id := user_id, created_at := now, expires_at := expires_at }
  let st := st.insert session_id session
  let st := st.cleanup_expired now
  (session_id, st)

/-- `SessionStore::is_valid` (`state.rs` lines 117–123). -/
def SessionStore.is_valid (st : SessionStore) (session_id : String)
    (now : Nat) : Bool :=
  match st.get_session session_id with
  | some session => now < session.expires_at
  | none => false

/-- `SessionStore::remove_session` (`state.rs` lines 125–127). -/
def SessionStore.remove_session (st : SessionStore) (session_id : String) :
    SessionStore :=
  ⟨st.sessions.filter (fun p => p.1 != session_id)⟩

/-- The `login` handler (`src/backend/src/handlers/auth.rs` lines 13–34):
authenticate, and only on success create a session in the shared
`SessionStore`. Returns the handler result (response plus issued session
id) together with the resulting store state. -/
def login (st : SessionStore) (b32 : B32Decode) (totp : TotpFn)
    (pass : PassEnv) (cfg : AuthConfig) (now : Nat) (fresh_id : String)
    (request : LoginRequest) :
    Except AppError (LoginResponse × String) × SessionStore :=
  match authenticate b32 totp pass cfg now request with
  | .error e => (.error e, st)
  | .ok response =>
    let (session_id, st) := st.create_session "user" now fresh_id
    (.ok (response, session_id), st)

/-! ## Header parsing (`extract_session`, duplicated verbatim in
`src/backend/src/auth_middleware.rs` lines 32–55 and
`src/backend/src/handlers/auth.rs` lines 75–98) -/

/-- Rust `str::split(';')` over the character list (keeps empty pieces,
as Rust does). -/
def splitOnChar (c : Char) : List Char → List (List Char)
  | [] => [[]]
  | x :: xs =>
    match splitOnChar c xs with
    | [] => [[]]
    | h :: t => if x = c then [] :: h :: t else (x :: h) :: t

/-- Rust `str::trim`: drop whitespace from both ends. -/
def trimChars (l : List Char) : List Char :=
  ((l.dropWhile Char.isWhitespace).reverse.dropWhile Char.isWhitespace).reverse

/-- Rust `str::strip_prefix`: the remainder after the prefix, if the
prefix matches. -/
def stripPrefixChars : List Char → List Char → Option (List Char)
  | [], l => some l
  | _ :: _, [] => none
  | p :: ps, x :: xs => if x = p then stripPrefixChars ps xs else none

/-- Rust `str::starts_with` (used on request paths). -/
def startsWithStr (s p : String) : Bool :=
  (stripPrefixChars p.data s.data).isSome

/-- The cookie loop of `extract_session`: split the cookie header on
`';'`, trim each part, return the value after the first `session=`. -/
def sessionFromCookie (cookie_str : String) : Option String :=
  ((splitOnChar ';' cookie_str.data).findSome? fun cookie =>
    stripPrefixChars "session=".data (trimChars cookie)).map List.asString

/-- The authorization fallback of `extract_session`: the token after
`Bearer `. -/
def bearerToken (auth_str : String) : Option String :=
  (stripPrefixChars "Bearer ".data auth_str.data).map List.asString

/-- A header value as seen through `HeaderValue::to_str`: either a valid
string or bytes that fail `to_str`. -/
inductive HeaderVal where
  | valid (s : String)
  | invalid
  deriving DecidableEq, Repr

/-- The two request headers `extract_session` reads. -/
structure HeaderMap where
  cookie : Option HeaderVal
  authorization : Option HeaderVal
  deriving DecidableEq, Repr

/-- The authorization-header half of `extract_session`. -/
def extractFromAuthHeader (headers : HeaderMap) : Option String :=
  match headers.authorization with
  | some (.valid auth_str) => bearerToken auth_str
  | _ => none

/-- `extract_session` (`src/backend/src/auth_middleware.rs` lines 32–55):
try the `session` cookie first, fall back to the `Bearer` authorization
header; malformed or absent headers fall through to `none`. -/
def extract_session (headers : HeaderMap) : Option String :=
  match headers.cookie with
  | some (.valid cookie_str) =>
    match sessionFromCookie cookie_str with
    | some v => some v
    | none => extractFromAuthHeader headers
  | _ => extractFromAuthHeader headers

/-- The cookie half of `extract_session`, as a standalone observation:
the value of the `session` cookie field, when one is present and
readable. -/
def cookieSessionOf (headers : HeaderMap) : Option String :=
  match headers.cookie with
  | some (.valid cookie_str) => sessionFromCookie cookie_str
  | _ => none

/-- The JSON body produced by the `status` handler. -/
structure StatusJson where
  authenticated : Bool
  user_id : Option String
  expires_at : Option Nat
  deriving DecidableEq, Repr

/-- The `status` handler (`src/backend/src/handlers/auth.rs` lines
36–56): the `authenticated` flag consults the session store
(`AppState::is_authenticated`), while the identity fields come from
`get_auth_status`, which only looks at the token's presence. -/
def status_handler (st : SessionStore) (cfg : AuthConfig)
    (headers : HeaderMap) (now : Nat) : StatusJson :=
  let session_id := extract_session headers
  let is_authenticated :=
    match session_id with
    | some id => st.is_valid id now
    | none => false
  let auth_status := get_auth_status cfg session_id now
  { authenticated := is_authenticated
    user_id := auth_status.user_id
    expires_at := auth_status.expires_at }

/-- The outcome of the middleware: forward the request to the inner
handler, or answer `401 Unauthorized`. -/
inductive MiddlewareDecision where
  | forward
  | unauthorized
  deriving DecidableEq, Repr

/-- The public-route predicate of `auth_middleware`
(`src/backend/src/auth_middleware.rs` line 17). -/
def isPublicPath (path : String) : Bool :=
  startsWithStr path "/api/auth/login" || startsWithStr path "/api/health" ||
    startsWithStr path "/assets" || path == "/"

/-- `auth_middleware` (`src/backend/src/auth_middleware.rs` lines 9–30):
skip authentication on public routes, otherwise require a session token
that the store currently validates. -/
def auth_middleware (st : SessionStore) (now : Nat) (path : String)
    (headers : HeaderMap) : MiddlewareDecision :=
  if isPublicPath path then
    .forward
  else
    match extract_session headers with
    | some id => if st.is_valid id now then .forward else .unauthorized
    | none => .unauthorized

/-! ## Git synchronization (`src/backend/src/git.rs`)

The `git2` library calls are modelled by a deterministic environment
`GitEnv`: each fallible library operation is an `Except String _` (its
error text), each observation (repository existence, branch tips, working
tree cleanliness) a value.  `sync` threads these exactly as the source
does, and additionally records the trace of claim-level steps it
attempts, in order. -/

/-- `GitSync` from `src/backend/src/git.rs`. -/
structure GitSync where
  config : GitConfig
  repo_path : String
  deriving DecidableEq, Repr

/-- `SyncStatus` from `src/backend/src/git.rs`. -/
structure SyncStatus where
  last_sync : Option Nat
  last_commit : Option String
  is_syncing : Bool
  error : Option String
  deriving DecidableEq, Repr

/-- The claim-level steps a `sync()` call can attempt. -/
inductive Step where
  | clone
  | fetch
  | reset
  | commit
  | push
  deriving DecidableEq, Repr

instance {ε α : Type} [DecidableEq ε] [DecidableEq α] :
    DecidableEq (Except ε α) := fun a b =>
  match a, b with
  | .error e, .error f => decidable_of_iff (e = f) (by simp)
  | .error _, .ok _ => isFalse (fun h => Except.noConfusion h)
  | .ok _, .error _ => isFalse (fun h => Except.noConfusion h)
  | .ok x, .ok y => decidable_of_iff (x = y) (by simp)

/-- Outcomes of the `git2` / filesystem operations `sync()` performs.
Fields follow the order of use in the source. -/
structure GitEnv where
  /-- `repo_path.exists() && repo_path.join(".git").exists()` in
  `ensure_repository`. -/
  repoExists : Bool
  /-- `Repository::open(&self.repo_path)` (in `ensure_repository` and
  again at the top of `sync`). -/
  openResult : Except String Unit
  /-- `std::fs::create_dir_all(parent)` in `clone_repository`. -/
  createDirResult : Except String Unit
  /-- `RepoBuilder::clone(repo_url, repo_path)` in `clone_repository`. -/
  cloneResult : Except String Unit
  /-- `repo.find_remote("origin")` in `pull` (and in `push`, where the
  same repository state gives the same outcome). -/
  findRemoteResult : Except String Unit
  /-- `remote.fetch(refs/heads/*:refs/remotes/origin/*, ..)` in `pull`. -/
  fetchResult : Except String Unit
  /-- `repo.head()?` followed by `head.shorthand()`: the current branch
  name, `none` when `shorthand` returns `None`. -/
  headBranch : Except String (Option String)
  /-- `find_reference(refs/remotes/origin/<branch>)` then
  `peel_to_commit`: the remote tip id. -/
  remoteTip : Except String String
  /-- `head.peel_to_commit()`: the local tip id. -/
  localTip : Except String String
  /-- `repo.reset(remote_commit, Hard, None)` in `pull`. -/
  resetResult : Except String Unit
  /-- `repo.statuses(None)?` in `push`: `true` iff non-empty, i.e. the
  working tree has modifications. -/
  statuses : Except String Bool
  /-- The commit block of `push` (index `add_all`/`write`,
  `Signature::now`, `write_tree`, `find_tree`, `head`, `peel_to_commit`,
  `repo.commit`): the new commit id. -/
  commitResult : Except String String
  /-- `remote.push(refspec, ..)` in `push`. -/
  pushResult : Except String Unit
  /-- `get_last_commit_hash`: `repo.head()` failure yields `Ok(None)` in
  the source, so the observation is an `Option`; the `Except` failure is
  `peel_to_commit` failing. -/
  lastCommit : Except String (Option String)
  deriving DecidableEq, Repr

/-- `GitSync::ensure_repository` (`git.rs` lines 63–74) together with
`clone_repository` (lines 76–104), returning the result and the attempted
claim-level steps. -/
def ensure_repository (env : GitEnv) :
    Except AppError Unit × List Step :=
  if env.repoExists then
    match env.openResult with
    | .error e => (.error (.GitError ("Failed to open repository: " ++ e)), [])
    | .ok _ => (.ok (), [])
  else
    match env.createDirResult with
    | .error e => (.error (.InternalError e), [])
    | .ok _ =>
      match env.cloneResult with
      | .error e =>
        (.error (.GitError ("Failed to clone repository: " ++ e)), [.clone])
      | .ok _ => (.ok (), [.clone])

/-- `GitSync::pull` (`git.rs` lines 106–161): fetch, resolve the local
and remote tips, and hard-reset the local branch to the remote tip when
they differ. -/
def pull (env : GitEnv) : Except AppError Unit × List Step :=
  match env.findRemoteResult with
  | .error e => (.error (.GitError ("Failed to find remote: " ++ e)), [])
  | .ok _ =>
    match env.fetchResult with
    | .error e => (.error (.GitError ("Failed to fetch: " ++ e)), [.fetch])
    | .ok _ =>
      match env.headBranch with
      | .error e => (.error (.GitError e), [.fetch])
      | .ok none => (.error (.GitError "Failed to get branch name"), [.fetch])
      | .ok (some _) =>
        match env.remoteTip with
        | .error e =>
          (.error (.GitError ("Failed to find remote branch: " ++ e)), [.fetch])
        | .ok remote_commit =>
          match env.localTip with
          | .error e => (.error (.GitError e), [.fetch])
          | .ok local_commit =>
            if local_commit ≠ remote_commit then
              match env.resetResult with
              | .error e => (.error (.GitError e), [.fetch, .reset])
              | .ok _ => (.ok (), [.fetch, .reset])
            else
              (.ok (), [.fetch])

/-- The trailing remote-push block of `GitSync::push` (`git.rs` lines
195–221), shared by the dirty and clean cases. -/
def pushToRemote (env : GitEnv) (tr : List Step) :
    Except AppError Unit × List Step :=
  match env.findRemoteResult with
  | .error e => (.error (.GitError e), tr)
  | .ok _ =>
    match env.headBranch with
    | .error e => (.error (.GitError e), tr)
    | .ok none => (.error (.GitError "Failed to get branch name"), tr)
    | .ok (some _) =>
      match env.pushResult with
      | .error e => (.error (.GitError ("Failed to push: " ++ e)), tr ++ [.push])
      | .ok _ => (.ok (), tr ++ [.push])

/-- `GitSync::push` (`git.rs` lines 163–222): commit all working-tree
changes when `statuses` is non-empty (and only then), then push the
current branch. -/
def push (env : GitEnv) : Except AppError Unit × List Step :=
  match env.statuses with
  | .error e => (.error (.GitError e), [])
  | .ok true =>
    match env.commitResult with
    | .error e => (.error (.GitError e), [.commit])
    | .ok _ => pushToRemote env [.commit]
  | .ok false => pushToRemote env []

/-- `GitSync::get_last_commit_hash` (`git.rs` lines 224–232). -/
def get_last_commit_hash (env : GitEnv) :
    Except AppError (Option String) :=
  match env.lastCommit with
  | .error e => .error (.GitError e)
  | .ok c => .ok c

/-- `GitSync::sync` (`git.rs` lines 37–61): ensure the repository, open
it, pull, push, and on full success report a fresh `SyncStatus`.  Every
failure propagates immediately (each call site uses `?`). -/
def sync (env : GitEnv) (now : Nat) :
    Except AppError SyncStatus × List Step :=
  match ensure_repository env with
  | (.error e, t1) => (.error e, t1)
  | (.ok _, t1) =>
    match env.openResult with
    | .error e => (.error (.GitError ("Failed to open repository: " ++ e)), t1)
    | .ok _ =>
      match pull env with
      | (.error e, t2) => (.error e, t1 ++ t2)
      | (.ok _, t2) =>
        match push env with
        | (.error e, t3) => (.error e, t1 ++ t2 ++ t3)
        | (.ok _, t3) =>
          match get_last_commit_hash env with
          | .error e => (.error e, t1 ++ t2 ++ t3)
          | .ok last_commit =>
            (.ok { last_sync := some now
                   last_commit := last_commit
                   is_syncing := false
                   error := none }, t1 ++ t2 ++ t3)

/-- `GitSync::get_status` (`git.rs` lines 234–241): a constant —
nothing is ever stored (the source carries `TODO: Store this in state`). -/
def get_status (_g : GitSync) : SyncStatus :=
  { last_sync := none
    last_commit := none
    is_syncing := false
    error := none }

/-- The clone step happens exactly when the working copy is absent. -/
def clonePart (env : GitEnv) : List Step :=
  if env.repoExists then [] else [.clone]

/-- The hard reset happens exactly when both tips resolve and differ. -/
def resetPart (env : GitEnv) : List Step :=
  match env.remoteTip, env.localTip with
  | .ok r, .ok l => if l ≠ r then [.reset] else []
  | _, _ => []

/-- The commit happens exactly when the working tree has modifications. -/
def commitPart (env : GitEnv) : List Step :=
  match env.statuses with
  | .ok true => [.commit]
  | _ => []

/-- The complete ordered step list `sync` attempts when nothing fails:
clone only when the working copy is absent, then fetch, then reset only
when the tips differ, then commit only when the tree is dirty, then
push. -/
def fullTrace (env : GitEnv) : List Step :=
  clonePart env ++ [.fetch] ++ resetPart env ++ commitPart env ++ [.push]

/-! ## Password mutation handlers (`src/backend/src/handlers/passwords.rs`) -/

/-- The JSON body of a successful mutation response (`success: true`). -/
structure MutationResponse where
  success : Bool
  deriving DecidableEq, Repr

/-- The `create_or_update` handler (`handlers/passwords.rs` lines
31–47): run the `pass` mutation; on its success trigger a git sync whose
error, if any, is only logged (`tracing::warn!`) — the handler still
answers `success: true`.  The second component records whether
`AppState::sync_git` was invoked. -/
def create_or_update (passResult : Except AppError Unit)
    (_syncResult : Except AppError SyncStatus) :
    Except AppError MutationResponse × Bool :=
  match passResult with
  | .error e => (.error e, false)
  | .ok _ => (.ok { success := true }, true)

/-- The `delete` handler (`handlers/passwords.rs` lines 49–63):
identical shape to `create_or_update`. -/
def delete (passResult : Except AppError Unit)
    (_syncResult : Except AppError SyncStatus) :
    Except AppError MutationResponse × Bool :=
  match passResult with
  | .error e => (.error e, false)
  | .ok _ => (.ok { success := true }, true)

/-! ## Concrete test fixtures

Closed instantiations of the external collaborators, used by witness and
counterexample theorems. -/

/-- A concrete `AuthConfig` with the given session timeout. -/
def cfgTest (hours : Nat) : AuthConfig :=
  { master_password_path := "kagikanri/master-password"
    totp_path := "kagikanri/totp"
    session_timeout_hours := hours }

/-- A concrete pass store holding a master password and a TOTP secret. -/
def passTest : PassEnv := fun path =>
  if path = "kagikanri/master-password" then
    .ok { password := "hunter2" }
  else
    .ok { password := "JBSWY3DPEHPK3PXP" }

/-- A concrete base32 decoder that accepts the test secret. -/
def b32Test : B32Decode := fun _ => some [72, 101, 108, 108, 111, 33]

/-- A concrete TOTP function: the code is the decimal window number. -/
def totpTest : TotpFn := fun _ window => toString window

/-- A concrete `GitSync` value (the source always uses the fixed path
`/data/password-store`). -/
def gitTest : GitSync :=
  { config := { repo_url := "https://example.com/store.git"
                access_token := "token"
                sync_interval_minutes := 5 }
    repo_path := "/data/password-store" }

/-- A `GitEnv` in which every git operation succeeds, the working copy
exists, the tips agree and the tree is clean. -/
def envAllOk : GitEnv :=
  { repoExists := true
    openResult := .ok ()
    createDirResult := .ok ()
    cloneResult := .ok ()
    findRemoteResult := .ok ()
    fetchResult := .ok ()
    headBranch := .ok (some "main")
    remoteTip := .ok "tip"
    localTip := .ok "tip"
    resetResult := .ok ()
    statuses := .ok false
    commitResult := .ok "newcommit"
    pushResult := .ok ()
    lastCommit := .ok (some "tip") }

/-- `envAllOk` with an absent working copy, differing tips, a dirty
tree, and a failing fetch: the sync must stop right after the clone and
the fetch attempt. -/
def envFetchFail : GitEnv :=
  { envAllOk with
    repoExists := false
    fetchResult := .error "connection refused"
    remoteTip := .ok "r"
    localTip := .ok "l"
    statuses := .ok true }

/-- `envAllOk` with an absent working copy, differing tips and a dirty
tree: a full run attempts clone, fetch, reset, commit and push. -/
def envFullRun : GitEnv :=
  { envAllOk with
    repoExists := false
    remoteTip := .ok "r"
    localTip := .ok "l"
    statuses := .ok true
    lastCommit := .ok (some "newcommit") }

/-! ## Theorems for the claims -/

/-- **C1.** When credential verification fails, `login` creates no
session and mutates no state: any `authenticate` error is propagated
unchanged with the store untouched; and when the supplied master
password differs from the stored one, `authenticate` fails with
`AuthenticationFailed` no matter what one-time code was supplied (the
TOTP check is never able to rescue the call). -/
theorem authenticate_failure_creates_no_session
    (st : SessionStore) (b32 : B32Decode) (totp : TotpFn) (pass : PassEnv)
    (cfg : AuthConfig) (now : Nat) (fresh_id : String)
    (request : LoginRequest) :
    (∀ e, authenticate b32 totp pass cfg now request = .error e →
      login st b32 totp pass cfg now fresh_id request = (.error e, st)) ∧
    (∀ stored, pass cfg.master_password_path = .ok stored →
      request.master_password ≠ stored.password →
      authenticate b32 totp pass cfg now request =
        .error (.AuthenticationFailed "Invalid master password")) := by
  constructor
  · intro e he
    simp [login, he]
  · intro stored hlookup hne
    simp [authenticate, verify_master_password, hlookup, hne]

/-- Witness for C1: a wrong master password with the correct
current-window code is rejected, leaves the (empty) store unchanged, and
surfaces `AuthenticationFailed`. -/
theorem authenticate_failure_creates_no_session_witness :
    login ⟨[]⟩ b32Test totpTest passTest (cfgTest 24) 60 "sid"
        { master_password := "wrong", totp_code := "2" } =
      (.error (.AuthenticationFailed "Invalid master password"), ⟨[]⟩) :=
  (authenticate_failure_creates_no_session ⟨[]⟩ b32Test totpTest passTest
    (cfgTest 24) 60 "sid"
    { master_password := "wrong", totp_code := "2" }).1
    (.AuthenticationFailed "Invalid master password") (by decide)

/-- **C2 counterexample.** A present-but-invalid session token: the
registry reports it invalid and the status is unauthenticated, yet the
handler still populates `user_id` and `expires_at` (`get_auth_status`
only checks the token's presence), refuting the claim that an invalid
token leaves the identity fields empty. -/
theorem status_invalid_token_populates_identity :
    SessionStore.is_valid ⟨[]⟩ "abc" 0 = false ∧
    status_handler ⟨[]⟩ (cfgTest 24) ⟨some (.valid "session=abc"), none⟩ 0 =
      { authenticated := false
        user_id := some "user"
        expires_at := some 86400 } := by
  decide

/-- **C2 amended.** The `authenticated` flag is true exactly when an
extracted token is currently valid in the registry; but the identity
fields follow mere token *presence*: `user_id = "user"` and
`expires_at = now + configured timeout` whenever any token was supplied
(valid or not), and both are `none` only when no token was supplied. -/
theorem status_identity_fields_follow_token_presence
    (st : SessionStore) (cfg : AuthConfig) (headers : HeaderMap)
    (now : Nat) :
    ((status_handler st cfg headers now).authenticated = true ↔
      ∃ id, extract_session headers = some id ∧ st.is_valid id now = true) ∧
    (status_handler st cfg headers now).user_id =
      (if (extract_session headers).isSome then some "user" else none) ∧
    (status_handler st cfg headers now).expires_at =
      (if (extract_session headers).isSome then
        some (now + cfg.session_timeout_hours * 3600)
      else none) := by
  unfold status_handler get_auth_status
  cases h : extract_session headers <;> simp [h]

/-- **C3.** (code bug) The session inserted by a successful login does
NOT expire after the configured timeout: `SessionStore::create_session`
hardcodes 24 hours (`TODO: Use config` in the source), while the login
response advertises `now + session_timeout_hours`.  With a configured
timeout of 1 hour and a login at `now = 60`, the response reports expiry
3660 but the stored session expires at 86460. -/
theorem create_session_hardcodes_24h_expiry :
    (login ⟨[]⟩ b32Test totpTest passTest (cfgTest 1) 60 "sid"
        { master_password := "hunter2", totp_code := "2" }).1 =
      .ok ({ success := true, user_id := "user", expires_at := 3660 }, "sid") ∧
    ((login ⟨[]⟩ b32Test totpTest passTest (cfgTest 1) 60 "sid"
        { master_password := "hunter2", totp_code := "2" }).2).get_session
        "sid" =
      some { user_id := "user", created_at := 60, expires_at := 86460 } ∧
    (3660 : Nat) ≠ 86460 := by
  decide

/-- **C4.** (code bug) `get_status` never reflects a sync outcome: it is
the constant `{last_sync: None, last_commit: None, is_syncing: false,
error: None}` (the source marks it `TODO: Store this in state`).  Hence
after a failed `sync()` the queried status has `error = None` — not a
populated message — and after a successful `sync()` it has
`last_commit = None`, contradicting the claim; only `is_syncing = false`
holds (vacuously, and in the value a successful `sync()` returns). -/
theorem get_status_is_constant_stub :
    (∀ g : GitSync, get_status g =
      { last_sync := none, last_commit := none
        is_syncing := false, error := none }) ∧
    (sync envAllOk 0).1 =
      .ok { last_sync := some 0, last_commit := some "tip"
            is_syncing := false, error := none } := by
  exact ⟨fun g => rfl, by decide⟩

/-- **C5 counterexample.** A successful mutation followed by a failing
sync: the handler answers `success: true` (the sync error is not
returned to the caller) and `get_status` still reports `error = None`
(it is not recorded either) — the error is silently swallowed, refuting
the claim. -/
theorem mutation_sync_error_swallowed :
    create_or_update (.ok ()) (.error (.GitError "unreachable remote")) =
      (.ok { success := true }, true) ∧
    delete (.ok ()) (.error (.GitError "unreachable remote")) =
      (.ok { success := true }, true) ∧
    (get_status gitTest).error = none := by
  decide

/-- **C5 amended.** The mutating secret handlers trigger a repository
sync exactly when the mutation succeeds, and mutation errors are
returned to the caller; but a sync error after a successful mutation is
only logged: the handler still answers `success: true`, and nothing
records the error in `SyncStatus` (`get_status` is a constant with
`error = None`). -/
theorem mutation_handlers_sync_after_success
    (passResult : Except AppError Unit)
    (syncResult : Except AppError SyncStatus) :
    ((create_or_update passResult syncResult).2 = true ↔
      passResult = .ok ()) ∧
    ((delete passResult syncResult).2 = true ↔ passResult = .ok ()) ∧
    (∀ e, passResult = .error e →
      create_or_update passResult syncResult = (.error e, false) ∧
      delete passResult syncResult = (.error e, false)) ∧
    (passResult = .ok () →
      (create_or_update passResult syncResult).1 = .ok { success := true } ∧
      (delete passResult syncResult).1 = .ok { success := true }) := by
  cases passResult <;>
    simp [create_or_update, delete]

/-- Witness for C5 amended: a failing mutation is returned to the caller
and triggers no sync. -/
theorem mutation_handlers_sync_after_success_witness :
    create_or_update (.error (.PassError "gpg failure")) (.ok (get_status gitTest)) =
      (.error (.PassError "gpg failure"), false) ∧
    delete (.error (.PassError "gpg failure")) (.ok (get_status gitTest)) =
      (.error (.PassError "gpg failure"), false) :=
  (mutation_handlers_sync_after_success (.error (.PassError "gpg failure"))
    (.ok (get_status gitTest))).2.2.1 (.PassError "gpg failure") rfl

/-- **C6.** One-time-code validation accepts a candidate iff it equals
the expected code of window `w = now / 30` or of window `w - 1`; any
code differing from both (in particular one computed for `w + 1` or
`w - 2` when its value differs) is rejected with `Invalid TOTP code`;
and a secret that fails base32 decoding yields `Invalid TOTP secret
format` instead of acceptance.  (`30 ≤ now` keeps the `u64` window
subtraction of the source meaningful.) -/
theorem verify_totp_window_acceptance
    (b32 : B32Decode) (totp : TotpFn) (pass : PassEnv) (cfg : AuthConfig)
    (now : Nat) (code : String) (entry : PasswordEntry)
    (hlookup : pass cfg.totp_path = .ok entry) (hnow : 30 ≤ now) :
    (∀ bytes, b32 entry.password = some bytes →
      (verify_totp b32 totp pass cfg now code = .ok () ↔
        (code = totp bytes (now / 30) ∨ code = totp bytes (now / 30 - 1))) ∧
      (code ≠ totp bytes (now / 30) → code ≠ totp bytes (now / 30 - 1) →
        verify_totp b32 totp pass cfg now code =
          .error (.AuthenticationFailed "Invalid TOTP code"))) ∧
    (b32 entry.password = none →
      verify_totp b32 totp pass cfg now code =
        .error (.AuthenticationFailed "Invalid TOTP secret format")) := by
  constructor
  · intro bytes hdec
    by_cases h0 : code = totp bytes (now / 30) <;>
      by_cases h1 : code = totp bytes (now / 30 - 1) <;>
        simp [verify_totp, hlookup, hdec, checkWindows, h0, h1]
  · intro hdec
    simp [verify_totp, hlookup, hdec]

/-- Witness for C6: at `now = 60` (windows 2 and 1) the codes `"2"` and
`"1"` are accepted, the forward-window code `"3"` and the stale code
`"0"` are rejected, and an undecodable secret fails. -/
theorem verify_totp_window_acceptance_witness :
    verify_totp b32Test totpTest passTest (cfgTest 24) 60 "2" = .ok () ∧
    verify_totp b32Test totpTest passTest (cfgTest 24) 60 "1" = .ok () ∧
    verify_totp b32Test totpTest passTest (cfgTest 24) 60 "3" =
      .error (.AuthenticationFailed "Invalid TOTP code") ∧
    verify_totp b32Test totpTest passTest (cfgTest 24) 60 "0" =
      .error (.AuthenticationFailed "Invalid TOTP code") ∧
    verify_totp (fun _ => none) totpTest passTest (cfgTest 24) 60 "2" =
      .error (.AuthenticationFailed "Invalid TOTP secret format") :=
  ⟨(((verify_totp_window_acceptance b32Test totpTest passTest (cfgTest 24)
      60 "2" { password := "JBSWY3DPEHPK3PXP" } (by decide) (by decide)).1
      [72, 101, 108, 108, 111, 33] (by decide)).1).mpr (.inl (by decide)),
   (((verify_totp_window_acceptance b32Test totpTest passTest (cfgTest 24)
      60 "1" { password := "JBSWY3DPEHPK3PXP" } (by decide) (by decide)).1
      [72, 101, 108, 108, 111, 33] (by decide)).1).mpr (.inr (by decide)),
   (((verify_totp_window_acceptance b32Test totpTest passTest (cfgTest 24)
      60 "3" { password := "JBSWY3DPEHPK3PXP" } (by decide) (by decide)).1
      [72, 101, 108, 108, 111, 33] (by decide)).2) (by decide) (by decide),
   (((verify_totp_window_acceptance b32Test totpTest passTest (cfgTest 24)
      60 "0" { password := "JBSWY3DPEHPK3PXP" } (by decide) (by decide)).1
      [72, 101, 108, 108, 111, 33] (by decide)).2) (by decide) (by decide),
   ((verify_totp_window_acceptance (fun _ => none) totpTest passTest
      (cfgTest 24) 60 "2" { password := "JBSWY3DPEHPK3PXP" } (by decide)
      (by decide)).2) rfl⟩

/-! ### Helper lemmas for the sync state machine (C7) -/

theorem ensure_steps_shape (env : GitEnv) (r : Except AppError Unit)
    (t : List Step) (h : ensure_repository env = (r, t)) :
    t = [] ∨ t = [Step.clone] := by
  unfold ensure_repository at h
  repeat' split at h
  all_goals simp_all

theorem ensure_ok_steps (env : GitEnv) (t : List Step)
    (h : ensure_repository env = (.ok (), t)) : t = clonePart env := by
  unfold ensure_repository at h
  unfold clonePart
  repeat' split at h
  all_goals simp_all

theorem pull_steps_shape (env : GitEnv) (r : Except AppError Unit)
    (t : List Step) (h : pull env = (r, t)) :
    t = [] ∨ t = [Step.fetch] ∨ t = [Step.fetch, Step.reset] := by
  unfold pull at h
  repeat' split at h
  all_goals simp_all

theorem pull_ok_steps (env : GitEnv) (t : List Step)
    (h : pull env = (.ok (), t)) : t = [Step.fetch] ++ resetPart env := by
  unfold pull at h
  unfold resetPart
  repeat' split at h
  all_goals simp_all

theorem push_ok_steps (env : GitEnv) (t : List Step)
    (h : push env = (.ok (), t)) : t = commitPart env ++ [Step.push] := by
  unfold push pushToRemote at h
  unfold commitPart
  repeat' split at h
  all_goals simp_all

theorem push_commit_dirty (env : GitEnv) (r : Except AppError Unit)
    (t : List Step) (h : push env = (r, t)) :
    Step.commit ∈ t → env.statuses = .ok true := by
  unfold push pushToRemote at h
  repeat' split at h
  all_goals simp only [Prod.mk.injEq] at h
  all_goals obtain ⟨hr, ht⟩ := h
  all_goals subst ht
  all_goals simp_all

theorem push_push_mem (env : GitEnv) (r : Except AppError Unit)
    (t : List Step) (h : push env = (r, t)) :
    Step.push ∈ t →
      (∃ b, env.statuses = .ok b) ∧
      (env.statuses = .ok true → ∃ c, env.commitResult = .ok c) := by
  unfold push pushToRemote at h
  repeat' split at h
  all_goals simp only [Prod.mk.injEq] at h
  all_goals obtain ⟨hr, ht⟩ := h
  all_goals subst ht
  all_goals simp_all

theorem sync_ok_trace (env : GitEnv) (now : Nat) (s : SyncStatus)
    (h : (sync env now).1 = .ok s) : (sync env now).2 = fullTrace env := by
  rcases h1 : ensure_repository env with ⟨r1, t1⟩
  unfold sync at h ⊢
  try rw [h1] at h
  try rw [h1]
  rcases r1 with e | u
  · simp at h
  · cases u
    have ht1 := ensure_ok_steps env t1 h1
    cases ho : env.openResult with
    | error e =>
      try rw [ho] at h
      simp at h
    | ok u2 =>
      try rw [ho] at h
      rcases h2 : pull env with ⟨r2, t2⟩
      try rw [h2] at h
      rcases r2 with e | u3
      · simp at h
      · cases u3
        have ht2 := pull_ok_steps env t2 h2
        rcases h3 : push env with ⟨r3, t3⟩
        try rw [h3] at h
        rcases r3 with e | u4
        · simp at h
        · cases u4
          have ht3 := push_ok_steps env t3 h3
          cases hg : get_last_commit_hash env with
          | error e =>
            try rw [hg] at h
            simp at h
          | ok lc =>
            dsimp only
            rw [ht1, ht2, ht3]
            simp [fullTrace, List.append_assoc]

theorem sync_commit_mem (env : GitEnv) (now : Nat)
    (h : Step.commit ∈ (sync env now).2) : env.statuses = .ok true := by
  rcases h1 : ensure_repository env with ⟨r1, t1⟩
  have hshape1 := ensure_steps_shape env r1 t1 h1
  have hno1 : Step.commit ∉ t1 := by rcases hshape1 with h' | h' <;> simp [h']
  unfold sync at h
  try rw [h1] at h
  rcases r1 with e | u
  · try dsimp only at h
    exact absurd h hno1
  · cases u
    cases ho : env.openResult with
    | error e =>
      try rw [ho] at h
      try dsimp only at h
      exact absurd h hno1
    | ok u2 =>
      try rw [ho] at h
      rcases h2 : pull env with ⟨r2, t2⟩
      try rw [h2] at h
      have hshape2 := pull_steps_shape env r2 t2 h2
      have hno2 : Step.commit ∉ t2 := by
        rcases hshape2 with h' | h' | h' <;> simp [h']
      rcases r2 with e | u3
      · try dsimp only at h
        simp only [List.mem_append, or_assoc] at h
        rcases h with h | h
        · exact absurd h hno1
        · exact absurd h hno2
      · cases u3
        rcases h3 : push env with ⟨r3, t3⟩
        try rw [h3] at h
        rcases r3 with e | u4
        · try dsimp only at h
          simp only [List.mem_append, or_assoc] at h
          rcases h with h | h | h
          · exact absurd h hno1
          · exact absurd h hno2
          · exact push_commit_dirty env _ t3 h3 h
        · cases u4
          cases hg : get_last_commit_hash env with
          | error e =>
            try rw [hg] at h
            try dsimp only at h
            simp only [List.mem_append, or_assoc] at h
            rcases h with h | h | h
            · exact absurd h hno1
            · exact absurd h hno2
            · exact push_commit_dirty env _ t3 h3 h
          | ok lc =>
            try rw [hg] at h
            try dsimp only at h
            simp only [List.mem_append, or_assoc] at h
            rcases h with h | h | h
            · exact absurd h hno1
            · exact absurd h hno2
            · exact push_commit_dirty env _ t3 h3 h

theorem sync_push_mem (env : GitEnv) (now : Nat)
    (h : Step.push ∈ (sync env now).2) :
    (ensure_repository env).1 = .ok () ∧ (pull env).1 = .ok () ∧
      (env.statuses = .ok true → ∃ c, env.commitResult = .ok c) := by
  rcases h1 : ensure_repository env with ⟨r1, t1⟩
  have hshape1 := ensure_steps_shape env r1 t1 h1
  have hno1 : Step.push ∉ t1 := by rcases hshape1 with h' | h' <;> simp [h']
  unfold sync at h
  try rw [h1] at h
  rcases r1 with e | u
  · try dsimp only at h
    exact absurd h hno1
  · cases u
    cases ho : env.openResult with
    | error e =>
      try rw [ho] at h
      try dsimp only at h
      exact absurd h hno1
    | ok u2 =>
      try rw [ho] at h
      rcases h2 : pull env with ⟨r2, t2⟩
      try rw [h2] at h
      have hshape2 := pull_steps_shape env r2 t2 h2
      have hno2 : Step.push ∉ t2 := by
        rcases hshape2 with h' | h' | h' <;> simp [h']
      rcases r2 with e | u3
      · try dsimp only at h
        simp only [List.mem_append, or_assoc] at h
        rcases h with h | h
        · exact absurd h hno1
        · exact absurd h hno2
      · cases u3
        rcases h3 : push env with ⟨r3, t3⟩
        try rw [h3] at h
        have key := push_push_mem env _ t3 h3
        rcases r3 with e | u4
        · try dsimp only at h
          simp only [List.mem_append, or_assoc] at h
          rcases h with h | h | h
          · exact absurd h hno1
          · exact absurd h hno2
          · exact ⟨by simp [h1], by simp [h2], (key h).2⟩
        · cases u4
          cases hg : get_last_commit_hash env with
          | error e =>
            try rw [hg] at h
            try dsimp only at h
            simp only [List.mem_append, or_assoc] at h
            rcases h with h | h | h
            · exact absurd h hno1
            · exact absurd h hno2
            · exact ⟨by simp [h1], by simp [h2], (key h).2⟩
          | ok lc =>
            try rw [hg] at h
            try dsimp only at h
            simp only [List.mem_append, or_assoc] at h
            rcases h with h | h | h
            · exact absurd h hno1
            · exact absurd h hno2
            · exact ⟨by simp [h1], by simp [h2], (key h).2⟩

theorem sync_fetch_fail (env : GitEnv) (now : Nat) (e : String)
    (hens : (ensure_repository env).1 = .ok ())
    (ho : env.openResult = .ok ())
    (hfr : env.findRemoteResult = .ok ())
    (hf : env.fetchResult = .error e) :
    sync env now = (.error (.GitError ("Failed to fetch: " ++ e)),
      clonePart env ++ [Step.fetch]) := by
  rcases h1 : ensure_repository env with ⟨r1, t1⟩
  rw [h1] at hens
  dsimp only at hens
  subst hens
  have ht1 := ensure_ok_steps env t1 h1
  have hpull : pull env = (.error (.GitError ("Failed to fetch: " ++ e)),
      [Step.fetch]) := by
    unfold pull
    rw [hfr, hf]
  unfold sync
  rw [h1, ho, hpull, ht1]

theorem ensure_prefix_steps (env : GitEnv) (r : Except AppError Unit)
    (t : List Step) (h : ensure_repository env = (r, t)) :
    ∃ rest, clonePart env = t ++ rest := by
  unfold ensure_repository at h
  unfold clonePart
  repeat' split at h
  all_goals simp_all

theorem pull_prefix_steps (env : GitEnv) (r : Except AppError Unit)
    (t : List Step) (h : pull env = (r, t)) :
    ∃ rest, [Step.fetch] ++ resetPart env = t ++ rest := by
  unfold pull at h
  unfold resetPart
  repeat' split at h
  all_goals simp_all

theorem push_prefix_steps (env : GitEnv) (r : Except AppError Unit)
    (t : List Step) (h : push env = (r, t)) :
    ∃ rest, commitPart env ++ [Step.push] = t ++ rest := by
  unfold push pushToRemote at h
  unfold commitPart
  repeat' split at h
  all_goals simp_all

theorem sync_trace_prefix_of_full (env : GitEnv) (now : Nat) :
    ∃ rest, fullTrace env = (sync env now).2 ++ rest := by
  rcases h1 : ensure_repository env with ⟨r1, t1⟩
  unfold sync
  rw [h1]
  rcases r1 with e | u
  · obtain ⟨rest1, hp1⟩ := ensure_prefix_steps env _ _ h1
    refine ⟨rest1 ++ ([Step.fetch] ++ resetPart env ++ commitPart env ++ [Step.push]), ?_⟩
    simp only [fullTrace, hp1, List.append_assoc]
  · cases u
    have ht1 := ensure_ok_steps env t1 h1
    cases ho : env.openResult with
    | error e =>
      refine ⟨[Step.fetch] ++ resetPart env ++ commitPart env ++ [Step.push], ?_⟩
      simp only [fullTrace, ht1, List.append_assoc]
    | ok u2 =>
      rcases h2 : pull env with ⟨r2, t2⟩
      rcases r2 with e | u3
      · obtain ⟨rest2, hp2⟩ := pull_prefix_steps env _ _ h2
        refine ⟨rest2 ++ (commitPart env ++ [Step.push]), ?_⟩
        calc fullTrace env
            = clonePart env ++ (([Step.fetch] ++ resetPart env) ++ (commitPart env ++ [Step.push])) := by
              simp only [fullTrace, List.append_assoc]
          _ = t1 ++ ((t2 ++ rest2) ++ (commitPart env ++ [Step.push])) := by rw [← ht1, hp2]
          _ = t1 ++ t2 ++ (rest2 ++ (commitPart env ++ [Step.push])) := by
              simp only [List.append_assoc]
      · cases u3
        have ht2 := pull_ok_steps env t2 h2
        rcases h3 : push env with ⟨r3, t3⟩
        rcases r3 with e | u4
        · obtain ⟨rest3, hp3⟩ := push_prefix_steps env _ _ h3
          refine ⟨rest3, ?_⟩
          calc fullTrace env
              = clonePart env ++ ([Step.fetch] ++ resetPart env) ++ (commitPart env ++ [Step.push]) := by
                simp only [fullTrace, List.append_assoc]
            _ = t1 ++ t2 ++ (t3 ++ rest3) := by rw [← ht1, ← ht2, hp3]
            _ = t1 ++ t2 ++ t3 ++ rest3 := by simp only [List.append_assoc]
        · cases u4
          have ht3 := push_ok_steps env t3 h3
          have hfull : fullTrace env = t1 ++ t2 ++ t3 := by
            calc fullTrace env
                = clonePart env ++ ([Step.fetch] ++ resetPart env) ++ (commitPart env ++ [Step.push]) := by
                  simp only [fullTrace, List.append_assoc]
              _ = t1 ++ t2 ++ t3 := by rw [← ht1, ← ht2, ← ht3]
          cases hlc : env.lastCommit with
          | error e => exact ⟨[], by simp [get_last_commit_hash, hlc, hfull]⟩
          | ok lc => exact ⟨[], by simp [get_last_commit_hash, hlc, hfull]⟩

theorem clean_tree_no_commit (env : GitEnv)
    (h : env.statuses = .ok false) : Step.commit ∉ fullTrace env := by
  unfold fullTrace clonePart resetPart commitPart
  rw [h]
  repeat' split
  all_goals simp_all

theorem present_copy_no_clone (env : GitEnv)
    (h : env.repoExists = true) : Step.clone ∉ fullTrace env := by
  unfold fullTrace clonePart resetPart commitPart
  rw [h]
  repeat' split
  all_goals simp_all

/-- **C7.** `sync()` step ordering: the attempted steps are always an
in-order prefix of clone-when-absent / fetch / reset-when-tips-differ /
commit-when-dirty / push, so a failing step aborts everything after it; a
successful sync attempts exactly that full sequence; a commit is
attempted only when the working tree has modifications and never when it
is clean; no clone happens when the working copy exists; the push step is
only reached after the pull phase succeeded and (on a dirty tree) the
commit succeeded; and a fetch failure surfaces immediately as its own
`GitError` with all later steps skipped. -/
theorem sync_step_order (env : GitEnv) (now : Nat) :
    (∃ rest, fullTrace env = (sync env now).2 ++ rest) ∧
    (∀ s, (sync env now).1 = .ok s → (sync env now).2 = fullTrace env) ∧
    (Step.commit ∈ (sync env now).2 → env.statuses = .ok true) ∧
    (env.statuses = .ok false → Step.commit ∉ fullTrace env) ∧
    (env.repoExists = true → Step.clone ∉ fullTrace env) ∧
    (Step.push ∈ (sync env now).2 →
      (ensure_repository env).1 = .ok () ∧ (pull env).1 = .ok () ∧
      (env.statuses = .ok true → ∃ c, env.commitResult = .ok c)) ∧
    (∀ e, (ensure_repository env).1 = .ok () → env.openResult = .ok () →
      env.findRemoteResult = .ok () → env.fetchResult = .error e →
      sync env now = (.error (.GitError ("Failed to fetch: " ++ e)),
        clonePart env ++ [Step.fetch])) :=
  ⟨sync_trace_prefix_of_full env now,
   fun s => sync_ok_trace env now s,
   sync_commit_mem env now,
   clean_tree_no_commit env,
   present_copy_no_clone env,
   sync_push_mem env now,
   fun e h1 h2 h3 h4 => sync_fetch_fail env now e h1 h2 h3 h4⟩

/-- Witness for C7: a full run over an absent copy with differing tips
and a dirty tree attempts exactly clone, fetch, reset, commit, push; and
a failing fetch aborts right after the clone and the fetch attempt with
the fetch error. -/
theorem sync_step_order_witness :
    (sync envFullRun 0).2 = fullTrace envFullRun ∧
    sync envFetchFail 0 =
      (.error (.GitError ("Failed to fetch: " ++ "connection refused")),
        clonePart envFetchFail ++ [Step.fetch]) :=
  ⟨(sync_step_order envFullRun 0).2.1
     { last_sync := some 0, last_commit := some "newcommit"
       is_syncing := false, error := none } (by decide),
   (sync_step_order envFetchFail 0).2.2.2.2.2.2 "connection refused"
     (by decide) rfl rfl rfl⟩


/-- **C8.** Session-token extraction is a pure function of the two
headers: it yields the `session` cookie field's value whenever one is
readable (taking precedence over any authorization header), otherwise
the token after `Bearer ` in the authorization header; absent headers
yield none and an unreadable (`to_str`-failing) header behaves like an
absent one, so malformed input degrades to "no token", never an error. -/
theorem extract_session_cookie_precedence (headers : HeaderMap) :
    (∀ v, cookieSessionOf headers = some v →
      extract_session headers = some v) ∧
    (cookieSessionOf headers = none →
      extract_session headers = extractFromAuthHeader headers) ∧
    (headers.authorization = none → extractFromAuthHeader headers = none) ∧
    extract_session { cookie := none, authorization := none } = none ∧
    (∀ a, extract_session { cookie := some .invalid, authorization := a } =
      extract_session { cookie := none, authorization := a }) ∧
    (∀ c, extract_session { cookie := c, authorization := some .invalid } =
      extract_session { cookie := c, authorization := none }) := by
  refine ⟨?_, ?_, ?_, rfl, fun a => rfl, ?_⟩
  · intro v hv
    unfold cookieSessionOf at hv
    unfold extract_session
    cases hc : headers.cookie with
    | none => rw [hc] at hv; simp at hv
    | some hval =>
      cases hval with
      | invalid => rw [hc] at hv; simp at hv
      | valid s =>
        rw [hc] at hv
        dsimp only at hv
        simp [hv]
  · intro h0
    unfold cookieSessionOf at h0
    unfold extract_session
    cases hc : headers.cookie with
    | none => rfl
    | some hval =>
      cases hval with
      | invalid => rfl
      | valid s =>
        rw [hc] at h0
        dsimp only at h0
        simp [h0]
  · intro ha
    unfold extractFromAuthHeader
    rw [ha]
  · intro c
    cases c with
    | none => rfl
    | some hval =>
      cases hval with
      | invalid => rfl
      | valid s =>
        unfold extract_session extractFromAuthHeader
        cases hs : sessionFromCookie s <;> simp [hs]

/-- Witness for C8: with both headers present the cookie wins; with no
`session` cookie field the bearer token is used. -/
theorem extract_session_cookie_precedence_witness :
    extract_session { cookie := some (.valid "theme=dark; session=abc")
                      authorization := some (.valid "Bearer xyz") } =
      some "abc" ∧
    extract_session { cookie := some (.valid "theme=dark")
                      authorization := some (.valid "Bearer xyz") } =
      some "xyz" :=
  ⟨(extract_session_cookie_precedence
      { cookie := some (.valid "theme=dark; session=abc")
        authorization := some (.valid "Bearer xyz") }).1 "abc" (by decide),
   ((extract_session_cookie_precedence
      { cookie := some (.valid "theme=dark")
        authorization := some (.valid "Bearer xyz") }).2.1
      (by decide)).trans (by decide)⟩

/-- **C10.** The authentication middleware forwards requests on the
public path patterns (`/api/auth/login*`, `/api/health*`, `/assets*`,
exactly `/`) without ever consulting the headers or the session store;
every other path is forwarded iff an extracted token is currently valid
in the session store, and answers `401 Unauthorized` otherwise. -/
theorem auth_middleware_gate (st : SessionStore) (now : Nat)
    (path : String) (headers : HeaderMap) :
    (isPublicPath path = true →
      auth_middleware st now path headers = .forward ∧
      ∀ headers2 st2 now2, auth_middleware st2 now2 path headers2 =
        auth_middleware st now path headers) ∧
    (isPublicPath path = false →
      ((auth_middleware st now path headers = .forward) ↔
        ∃ id, extract_session headers = some id ∧
          st.is_valid id now = true) ∧
      (auth_middleware st now path headers = .forward ∨
        auth_middleware st now path headers = .unauthorized)) ∧
    isPublicPath path = (startsWithStr path "/api/auth/login" ||
      startsWithStr path "/api/health" || startsWithStr path "/assets" ||
      path == "/") := by
  refine ⟨?_, ?_, rfl⟩
  · intro hp
    constructor
    · simp [auth_middleware, hp]
    · intro headers2 st2 now2
      simp [auth_middleware, hp]
  · intro hp
    constructor
    · unfold auth_middleware
      rw [hp]
      cases he : extract_session headers with
      | none => simp
      | some id =>
        cases hv : st.is_valid id now <;> simp [hv]
    · unfold auth_middleware
      rw [hp]
      cases he : extract_session headers with
      | none => simp
      | some id =>
        cases hv : st.is_valid id now <;> simp [hv]

/-- Witness for C10: the health route is forwarded with no session, and
for a protected route the forward decision is exactly token validity
(here: no token, so not forwarded). -/
theorem auth_middleware_gate_witness :
    auth_middleware ⟨[]⟩ 0 "/api/health" { cookie := none, authorization := none } =
      .forward ∧
    ((auth_middleware ⟨[]⟩ 0 "/api/passwords/github"
        { cookie := none, authorization := none } = .forward) ↔
      ∃ id, extract_session { cookie := none, authorization := none } =
          some id ∧ SessionStore.is_valid ⟨[]⟩ id 0 = true) :=
  ⟨((auth_middleware_gate ⟨[]⟩ 0 "/api/health"
      { cookie := none, authorization := none }).1 (by decide)).1,
   ((auth_middleware_gate ⟨[]⟩ 0 "/api/passwords/github"
      { cookie := none, authorization := none }).2.1 (by decide)).1⟩

end Kagikanri
